import Mathlib

/-
  Verification development for the Ken Burns video generator
  (src/lambda/ken_burns_video_generator.py, with the legacy ffmpeg backend
  in src/old/ken_burns_video_generator.py).

  Numeric model: Python float arithmetic is embedded as exact rational
  arithmetic over ℚ; Python `int(x)` truncation toward zero is `pyInt`.
  Fallible Python code (exceptions) is embedded as `Except PyErr`.
-/

/-- Python exceptions that the embedded code can raise. -/
inductive PyErr where
  | zeroDivisionError
  | attributeError
  | cvError
deriving DecidableEq

/-- Ambient process state visible to the Python code: module globals and the
wall clock read by `datetime.now()`. Threaded explicitly so that
state-independence (determinism) of frame generation is a provable statement
rather than an artifact of the embedding. -/
structure Env where
  clock : ℕ

/-- A raster frame: dimensions plus a pixel lookup (row, column) → value.
Channel structure is abstracted into a single natural per pixel. -/
structure Raster where
  w : ℕ
  h : ℕ
  pix : ℕ → ℕ → ℕ

/-- Python `int(x)` on a float: truncation toward zero. -/
def pyInt (q : ℚ) : ℤ := if 0 ≤ q then ⌊q⌋ else -⌊-q⌋

/-- Numpy basic-slice index normalization for an axis of length `len`:
negative indices count from the end, then the index is clamped into
`[0, len]`. -/
def npIdx (i : ℤ) (len : ℕ) : ℕ :=
  (max 0 (min (if i < 0 then (len : ℤ) + i else i) (len : ℤ))).toNat

/-- Numpy 2-d basic slice `frame[y0 : y0 + hh, x0 : x0 + ww]`. -/
def npSlice (r : Raster) (y0 hh x0 ww : ℤ) : Raster :=
  { w := npIdx (x0 + ww) r.w - npIdx x0 r.w
    h := npIdx (y0 + hh) r.h - npIdx y0 r.h
    pix := fun y x => r.pix (npIdx y0 r.h + y) (npIdx x0 r.w + x) }

/-- `cv2.resize(src, dsize)`: fails on an empty input or an empty requested
size, otherwise returns a raster of exactly `dsize`. The resampling kernel is
abstracted as deterministic nearest sampling; OpenCV guarantees the output
dimensions equal `dsize` exactly, which is all the development relies on. -/
def cvResize (r : Raster) (size : ℕ × ℕ) : Except PyErr Raster :=
  if r.w = 0 ∨ r.h = 0 ∨ size.1 = 0 ∨ size.2 = 0 then .error .cvError
  else .ok { w := size.1
             h := size.2
             pix := fun y x => r.pix (y * r.h / size.2) (x * r.w / size.1) }

/-- Zoom curve of `zoom_pan` (src/lambda line 402):
`zoom = 1.3 - (0.3 * t / duration)`. -/
def kenBurnsZoom (t duration : ℚ) : ℚ := 13/10 - (3/10) * t / duration

/-- Pan curve of `zoom_pan` (src/lambda lines 405-406):
`pan = 0.15 * (1 - t / duration)`, used for both axes. -/
def kenBurnsPan (t duration : ℚ) : ℚ := (3/20) * (1 - t / duration)

/-- `zoom_pan(t)` (src/lambda lines 400-408). The closure divides by
`duration` with no validation: `duration = 0` raises `ZeroDivisionError`
(Python float division), any other value is computed normally. -/
def zoomPan (t duration : ℚ) : Except PyErr (ℚ × ℚ × ℚ) :=
  if duration = 0 then .error .zeroDivisionError
  else .ok (kenBurnsZoom t duration, kenBurnsPan t duration, kenBurnsPan t duration)

/-- Effect configuration as described by the spec (§3). The code does not
take such a record as input; its constants 1.3, 0.3 and 0.15 realize exactly
the default policy below. -/
structure EffectConfig where
  zoomStart : ℚ
  zoomEnd : ℚ
  panStart : ℚ × ℚ
  panEnd : ℚ × ℚ

/-- The default effect policy: the constants hard-wired in `zoom_pan`
(zoomStart 1.3, zoomEnd 1.0, pan 15% → 0%). -/
def defaultEffectConfig : EffectConfig :=
  { zoomStart := 13/10, zoomEnd := 1, panStart := (3/20, 3/20), panEnd := (0, 0) }

/-- Modelled from the spec (§4.1): the contract
`parametersAt(t, duration, cfg)` with linear interpolation, written from the
spec formulas for comparison against the code realization `zoomPan`. -/
def parametersAtSpec (t d : ℚ) (cfg : EffectConfig) : ℚ × ℚ × ℚ :=
  (cfg.zoomStart - (cfg.zoomStart - cfg.zoomEnd) * (t / d),
   cfg.panStart.1 + (cfg.panEnd.1 - cfg.panStart.1) * (t / d),
   cfg.panStart.2 + (cfg.panEnd.2 - cfg.panStart.2) * (t / d))

/-- Crop rectangle computed by `apply_effect` (src/lambda lines 417-424):
`crop_w = int(w / zoom)`, `crop_h = int(h / zoom)`,
`start_x = int(pan_x * (w - crop_w))`, `start_y = int(pan_y * (h - crop_h))`.
No clamping of any kind is performed. Callers guard `zoom = 0` first
(`transformFrame`), matching where Python would raise. -/
structure CropRect where
  cropW : ℤ
  cropH : ℤ
  startX : ℤ
  startY : ℤ
deriving DecidableEq

def cropRect (w h : ℕ) (zoom panX panY : ℚ) : CropRect :=
  let cw := pyInt ((w : ℚ) / zoom)
  let ch := pyInt ((h : ℚ) / zoom)
  { cropW := cw
    cropH := ch
    startX := pyInt (panX * ((w : ℚ) - (cw : ℚ)))
    startY := pyInt (panY * ((h : ℚ) - (ch : ℚ))) }

/-- Body of `apply_effect` (src/lambda lines 411-432) given the parameter
triple from `zoom_pan`: compute the crop rectangle, slice the frame, resize
the slice to the target resolution. -/
def transformFrame (frame : Raster) (zoom panX panY : ℚ) (targetSize : ℕ × ℕ) :
    Except PyErr Raster :=
  if zoom = 0 then .error .zeroDivisionError
  else
    let r := cropRect frame.w frame.h zoom panX panY
    cvResize (npSlice frame r.startY r.cropH r.startX r.cropW) targetSize

/-- Frame at timestamp `t` of a Ken Burns image clip, per
`_apply_ken_burns_effect` (src/lambda lines 383-438): the source image is
resized to `zoomed_size = (int(1920 * 1.3), int(1080 * 1.3))`, then each
frame applies `zoom_pan(t)` followed by the crop-and-resize transform at the
target resolution 1920×1080. The code in these lines reads nothing from the
ambient state `env` (no clock, no randomness, no mutable globals). -/
def kenBurnsFrameAt (env : Env) (img : Raster) (duration t : ℚ) :
    Except PyErr Raster :=
  let _ := env
  let zw := (pyInt ((1920 : ℚ) * (13/10))).toNat
  let zh := (pyInt ((1080 : ℚ) * (13/10))).toNat
  match cvResize img (zw, zh) with
  | .error e => .error e
  | .ok resized =>
    match zoomPan t duration with
    | .error e => .error e
    | .ok params => transformFrame resized params.1 params.2.1 params.2.2 (1920, 1080)

/-- One entry of the image list handed to the segment builders; `present`
models `os.path.exists(image_path)` (src/lambda lines 360-361, 460-461). -/
structure ImageRef where
  present : Bool
deriving DecidableEq

/-- Duration assignment of `_create_ken_burns_segment` (src/lambda lines
345-377) and `_generate_segment_video` (lines 445-475): an even float split
`image_duration = duration / image_count` computed from the FULL image count,
then one clip of exactly `image_duration` per image whose file exists
(missing images are skipped with `continue`). Returns the list of clip
durations of the concatenated segment, `none` when the input list or the
surviving clip list is empty. -/
def createKenBurnsSegment (images : List ImageRef) (duration : ℚ) :
    Option (List ℚ) :=
  if images.isEmpty then none
  else
    let imageDuration := duration / (images.length : ℚ)
    let clips := (images.filter (fun i => i.present)).map (fun _ => imageDuration)
    if clips.isEmpty then none else some clips

/-- Modelled from the spec (§4.3-§4.4): the rendered frame count of a clip of
a given duration is `round(duration × fps)` at the code constant
`DEFAULT_FPS = 24`. The rendering loop itself lives in the external encoder
(moviepy), not under src/; only the per-clip durations are repository code. -/
def frameCount (duration : ℚ) : ℤ := round (duration * 24)

/-- Duration reconciliation of `_combine_segments_with_audio` (src/lambda
lines 504-556, audio logic lines 521-528) and `_generate_ken_burns_video`
(lines 306-313): the result is (video duration, audio duration). The audio
is trimmed with `subclip(0, video.duration)` only when strictly longer than
the video; otherwise both streams are left unchanged. -/
def combineSegmentsWithAudio (videoDuration : ℚ) (audio : Option ℚ) :
    ℚ × Option ℚ :=
  match audio with
  | none => (videoDuration, none)
  | some a =>
    if videoDuration < a then (videoDuration, some videoDuration)
    else (videoDuration, some a)

/-- Duration reconciliation of the legacy
`_combine_segments_with_audio_ffmpeg` (src/old lines 298-353): when an audio
file is present the mux command passes `-shortest`, whose documented ffmpeg
semantics end the output when the shortest input stream ends, so BOTH output
streams are truncated to `min(videoDuration, audioDuration)`. -/
def combineSegmentsWithAudioFfmpeg (videoDuration : ℚ) (audio : Option ℚ) :
    ℚ × Option ℚ :=
  match audio with
  | none => (videoDuration, none)
  | some a => (min videoDuration a, some (min videoDuration a))

/-- A Lambda response value. -/
structure Response where
  statusCode : ℕ
  body : String
deriving DecidableEq

/-- `datetime.now().isoformat()` — reads the ambient clock; exists and
succeeds (used by src/old). -/
def datetimeIsoformat (env : Env) : String := toString env.clock

/-- `datetime.now().iso8601()` as written in src/lambda (lines 104, 154, 199,
569, 596, 640): `datetime.datetime` has no attribute `iso8601` (the real
method is `isoformat`), so the attribute lookup raises `AttributeError`
regardless of the clock value. -/
def datetimeIso8601 (env : Env) : Except PyErr String :=
  let _ := env
  .error .attributeError

/-- `_error_response` (src/lambda lines 634-642): builds the statusCode-500
body from the message and `datetime.now().iso8601()`. The timestamp call
raises, so the construction never completes. -/
def errorResponse (env : Env) (message : String) : Except PyErr Response :=
  match datetimeIso8601 env with
  | .error e => .error e
  | .ok ts => .ok { statusCode := 500, body := "error: " ++ message ++ " timestamp: " ++ ts }

/-- `lambda_handler` (src/lambda lines 35-57) control-flow skeleton. The
three dispatch targets are abstracted as the results `procSegment`,
`procCombine`, `procFull` (they perform S3 I/O). A missing or falsy
`project_id` returns `_error_response` inside the `try` block; any exception
from the body is caught by `except Exception` which calls `_error_response`
again — an exception raised there propagates to the caller. -/
def lambdaHandler (env : Env) (procSegment procCombine procFull : Except PyErr Response)
    (projectId : Option String) (segmentProcessing videoCombination : Bool) :
    Except PyErr Response :=
  let body : Except PyErr Response :=
    match projectId with
    | none => errorResponse env "project_id is required"
    | some _ =>
      if segmentProcessing then procSegment
      else if videoCombination then procCombine
      else procFull
  match body with
  | .ok r => .ok r
  | .error _ => errorResponse env "Video generation failed"

/-! ### Helper lemmas -/

theorem pyInt_of_nonneg {q : ℚ} (h : 0 ≤ q) : pyInt q = ⌊q⌋ := if_pos h

theorem pyInt_nonneg {q : ℚ} (h : 0 ≤ q) : 0 ≤ pyInt q := by
  rw [pyInt_of_nonneg h]
  exact Int.floor_nonneg.mpr h

theorem pyInt_le_intCast {q : ℚ} {n : ℤ} (h0 : 0 ≤ q) (h : q ≤ (n : ℚ)) :
    pyInt q ≤ n := by
  rw [pyInt_of_nonneg h0]
  calc ⌊q⌋ ≤ ⌊(n : ℚ)⌋ := Int.floor_le_floor h
    _ = n := Int.floor_intCast n

theorem one_le_pyInt {q : ℚ} (h : 1 ≤ q) : 1 ≤ pyInt q := by
  rw [pyInt_of_nonneg (le_trans zero_le_one h)]
  exact Int.le_floor.mpr (by exact_mod_cast h)

theorem start_in_range {n : ℕ} {c : ℤ} {p : ℚ} (hcn : c ≤ (n : ℤ))
    (hp0 : 0 ≤ p) (hp1 : p ≤ 1) :
    0 ≤ pyInt (p * ((n : ℚ) - (c : ℚ))) ∧
    pyInt (p * ((n : ℚ) - (c : ℚ))) + c ≤ (n : ℤ) := by
  have hL : (0 : ℚ) ≤ (n : ℚ) - (c : ℚ) := by
    have : (c : ℚ) ≤ (n : ℚ) := by exact_mod_cast hcn
    linarith
  have h0 : 0 ≤ p * ((n : ℚ) - (c : ℚ)) := mul_nonneg hp0 hL
  refine ⟨pyInt_nonneg h0, ?_⟩
  have h1 : p * ((n : ℚ) - (c : ℚ)) ≤ ((n - c : ℤ) : ℚ) := by
    push_cast
    nlinarith
  have h2 := pyInt_le_intCast h0 h1
  omega

theorem npIdx_eq_toNat {i : ℤ} {len : ℕ} (h0 : 0 ≤ i) (h1 : i ≤ (len : ℤ)) :
    npIdx i len = i.toNat := by
  unfold npIdx
  rw [if_neg (not_lt.mpr h0), min_eq_left h1, max_eq_right h0]

theorem npSlice_dims {r : Raster} {y0 hh x0 ww : ℤ}
    (hy0 : 0 ≤ y0) (hhh : 0 ≤ hh) (hye : y0 + hh ≤ (r.h : ℤ))
    (hx0 : 0 ≤ x0) (hww : 0 ≤ ww) (hxe : x0 + ww ≤ (r.w : ℤ)) :
    (npSlice r y0 hh x0 ww).w = ww.toNat ∧ (npSlice r y0 hh x0 ww).h = hh.toNat := by
  have hxA : npIdx x0 r.w = x0.toNat := npIdx_eq_toNat hx0 (by omega)
  have hxB : npIdx (x0 + ww) r.w = (x0 + ww).toNat := npIdx_eq_toNat (by omega) hxe
  have hyA : npIdx y0 r.h = y0.toNat := npIdx_eq_toNat hy0 (by omega)
  have hyB : npIdx (y0 + hh) r.h = (y0 + hh).toNat := npIdx_eq_toNat (by omega) hye
  constructor
  · show npIdx (x0 + ww) r.w - npIdx x0 r.w = ww.toNat
    rw [hxB, hxA]
    omega
  · show npIdx (y0 + hh) r.h - npIdx y0 r.h = hh.toNat
    rw [hyB, hyA]
    omega

theorem map_const_eq_replicate {α β : Type} (l : List α) (c : β) :
    l.map (fun _ => c) = List.replicate l.length c := by
  induction l with
  | nil => rfl
  | cons a t ih => simp [ih, List.replicate_succ]

/-! ### Claim theorems -/

/-- C2 (confirmed): the code realization `zoom_pan` of the effect parameter
function interpolates linearly per the spec formula and is exact at the
endpoints, at the default EffectConfig that the code hard-wires (its
constants 1.3, 0.3 and 0.15): for every positive duration `d` and every `t`,
`zoomPan t d` equals the spec interpolation, `zoomPan 0 d` returns
`(zoomStart, panStart)` and `zoomPan d d` returns `(zoomEnd, panEnd)`. -/
theorem c2_linear_interpolation_endpoints (t d : ℚ) (hd : 0 < d) :
    zoomPan t d = Except.ok (parametersAtSpec t d defaultEffectConfig) ∧
    zoomPan 0 d = Except.ok (defaultEffectConfig.zoomStart,
      defaultEffectConfig.panStart.1, defaultEffectConfig.panStart.2) ∧
    zoomPan d d = Except.ok (defaultEffectConfig.zoomEnd,
      defaultEffectConfig.panEnd.1, defaultEffectConfig.panEnd.2) := by
  have hne : d ≠ 0 := ne_of_gt hd
  have hspec : ∀ s : ℚ, parametersAtSpec s d defaultEffectConfig =
      (13/10 - (13/10 - 1) * (s / d), 3/20 + (0 - 3/20) * (s / d),
        3/20 + (0 - 3/20) * (s / d)) := fun _ => rfl
  have hzoom : ∀ s : ℚ, kenBurnsZoom s d = 13/10 - (13/10 - 1) * (s / d) := by
    intro s
    unfold kenBurnsZoom
    ring
  have hpan : ∀ s : ℚ, kenBurnsPan s d = 3/20 + (0 - 3/20) * (s / d) := by
    intro s
    unfold kenBurnsPan
    ring
  have key : ∀ s : ℚ, (kenBurnsZoom s d, kenBurnsPan s d, kenBurnsPan s d) =
      parametersAtSpec s d defaultEffectConfig := by
    intro s
    rw [hspec s, hzoom s, hpan s]
  refine ⟨?_, ?_, ?_⟩
  · show zoomPan t d = _
    unfold zoomPan
    rw [if_neg hne]
    exact congrArg Except.ok (key t)
  · show zoomPan 0 d = _
    unfold zoomPan
    rw [if_neg hne]
    refine congrArg Except.ok ?_
    rw [key 0, hspec 0]
    show _ = ((13/10 : ℚ), (3/20 : ℚ), (3/20 : ℚ))
    norm_num
  · show zoomPan d d = _
    unfold zoomPan
    rw [if_neg hne]
    refine congrArg Except.ok ?_
    rw [key d, hspec d, div_self hne]
    show _ = ((1 : ℚ), (0 : ℚ), (0 : ℚ))
    norm_num

/-- C2 witness at `d = 2`, `t = 1`. -/
theorem c2_linear_interpolation_endpoints_witness :
    zoomPan 1 2 = Except.ok (parametersAtSpec 1 2 defaultEffectConfig) ∧
    zoomPan 0 2 = Except.ok (defaultEffectConfig.zoomStart,
      defaultEffectConfig.panStart.1, defaultEffectConfig.panStart.2) ∧
    zoomPan 2 2 = Except.ok (defaultEffectConfig.zoomEnd,
      defaultEffectConfig.panEnd.1, defaultEffectConfig.panEnd.2) :=
  c2_linear_interpolation_endpoints 1 2 (by norm_num)

/-- C6 (confirmed): the zoom value of the code effect curve is monotonically
non-increasing over the clip domain: for `0 ≤ t1 < t2 ≤ d` with `d > 0`,
`kenBurnsZoom t2 d ≤ kenBurnsZoom t1 d`. The fixed configuration of the code
satisfies zoomStart = 1.3 ≥ 1.0 = zoomEnd. -/
theorem c6_zoom_monotone (d t1 t2 : ℚ) (hd : 0 < d) (h0 : 0 ≤ t1)
    (h12 : t1 < t2) (h2 : t2 ≤ d) :
    kenBurnsZoom t2 d ≤ kenBurnsZoom t1 d := by
  unfold kenBurnsZoom
  have hmul : (3/10 : ℚ) * t1 ≤ (3/10) * t2 := by nlinarith
  have := (div_le_div_iff_of_pos_right hd).mpr hmul
  linarith

/-- C6 witness at `d = 2`, `t1 = 0`, `t2 = 1`. -/
theorem c6_zoom_monotone_witness : kenBurnsZoom 1 2 ≤ kenBurnsZoom 0 2 :=
  c6_zoom_monotone 2 0 1 (by norm_num) (by norm_num) (by norm_num) (by norm_num)

/-- C7 (corrected) counterexample: the claim says every call with
duration ≤ 0 signals InvalidArgument; at duration = −1 the code instead
returns a normally computed (extrapolated) parameter triple. -/
theorem c7_negative_duration_counterexample :
    zoomPan 1 (-1) = Except.ok (8/5, 3/10, 3/10) ∧ ((-1 : ℚ) ≤ 0) := by
  constructor
  · norm_num [zoomPan, kenBurnsZoom, kenBurnsPan]
  · norm_num

/-- C7 (corrected, amended): `zoom_pan` performs no duration validation:
a call with duration = 0 raises ZeroDivisionError — an unrelated exception,
not InvalidArgument — and a call with duration ≠ 0 (including every negative
duration) returns the computed triple without signaling anything. -/
theorem c7_no_duration_validation (t d : ℚ) :
    (d = 0 → zoomPan t d = Except.error PyErr.zeroDivisionError) ∧
    (d ≠ 0 → zoomPan t d =
      Except.ok (kenBurnsZoom t d, kenBurnsPan t d, kenBurnsPan t d)) := by
  constructor
  · intro hd
    simp [zoomPan, hd]
  · intro hd
    simp [zoomPan, hd]

/-- C7 witness: the amended claim applied at duration 0 and duration −1. -/
theorem c7_no_duration_validation_witness :
    zoomPan 1 0 = Except.error PyErr.zeroDivisionError ∧
    zoomPan 1 (-1) =
      Except.ok (kenBurnsZoom 1 (-1), kenBurnsPan 1 (-1), kenBurnsPan 1 (-1)) :=
  ⟨(c7_no_duration_validation 1 0).1 rfl,
   (c7_no_duration_validation 1 (-1)).2 (by norm_num)⟩

/-- C4 (corrected) counterexample: the legacy ffmpeg combiner passes
`-shortest`, so with video 10s and audio 5s the output video is truncated to
5s — the video does not keep its full length past audio end. -/
theorem c4_ffmpeg_shortest_counterexample :
    combineSegmentsWithAudioFfmpeg 10 (some 5) = (5, some 5) ∧ (5 : ℚ) ≠ 10 := by
  constructor
  · simp [combineSegmentsWithAudioFfmpeg]
    norm_num
  · norm_num

/-- C4 (corrected, amended): the moviepy combiner of src/lambda reconciles
one-sidedly exactly as claimed — the video duration is always preserved and
the audio becomes `min(audio, video)` (trimmed only when longer, unchanged
when shorter, never looped or stretched); the legacy ffmpeg combiner of
src/old instead truncates both streams to the shorter one. -/
theorem c4_moviepy_one_sided (v a : ℚ) :
    combineSegmentsWithAudio v (some a) = (v, some (min a v)) ∧
    combineSegmentsWithAudio v none = (v, none) := by
  refine ⟨?_, rfl⟩
  by_cases hva : v < a
  · simp [combineSegmentsWithAudio, hva, min_eq_right hva.le]
  · simp [combineSegmentsWithAudio, hva, min_eq_left (not_lt.mp hva)]

/-- C9 (confirmed): frame generation is deterministic — the frame at a
timestamp is a pure function of the source image, the duration and the
timestamp, independent of the ambient process state (clock, globals); in
particular evaluating it twice yields identical frames. -/
theorem c9_frame_deterministic (env1 env2 : Env) (img : Raster) (d t : ℚ) :
    kenBurnsFrameAt env1 img d t = kenBurnsFrameAt env2 img d t := rfl

/-- C1 (corrected) counterexample: the segment builder assigns every image
the same duration with no frame-count rounding; with 5 images, a 1-second
segment and the code fps 24, every image (the last included) gets 1/5 s and
round(1/5 × 24) = 5 frames, so the per-image frame counts sum to 25 while
round(segmentDuration × fps) = 24 — the frame-count-domain invariant fails
and no remainder frame is taken from or given to the last image. -/
theorem c1_frame_count_counterexample :
    createKenBurnsSegment [⟨true⟩, ⟨true⟩, ⟨true⟩, ⟨true⟩, ⟨true⟩] 1 =
      some [1/5, 1/5, 1/5, 1/5, 1/5] ∧
    (([(1 : ℚ)/5, 1/5, 1/5, 1/5, 1/5]).map frameCount).sum = 25 ∧
    frameCount 1 = 24 ∧
    (([(1 : ℚ)/5, 1/5, 1/5, 1/5, 1/5]).map frameCount).sum ≠ frameCount 1 := by
  refine ⟨?_, ?_, ?_, ?_⟩
  · norm_num [createKenBurnsSegment, List.filter]
  · norm_num [frameCount, round_eq]
  · norm_num [frameCount, round_eq]
  · norm_num [frameCount, round_eq]

/-- C1 (corrected, amended): for every non-empty image list whose images all
synthesize and every segmentDuration, the Segment Assembler assigns each
image — the last included — exactly segmentDuration / count(images), and the
per-image durations sum to segmentDuration exactly in the rational time
domain; the code performs no integer frame-count rounding and assigns no
remainder frame to the last image, so the per-image frame counts need not
sum to round(segmentDuration × fps). -/
theorem c1_even_split_exact (images : List ImageRef) (d : ℚ)
    (hne : images ≠ []) (hall : ∀ i ∈ images, i.present = true) :
    createKenBurnsSegment images d =
      some (List.replicate images.length (d / (images.length : ℚ))) ∧
    (List.replicate images.length (d / (images.length : ℚ))).sum = d := by
  have hlen : images.length ≠ 0 := fun h => hne (List.length_eq_zero.mp h)
  have hfil : images.filter (fun i => i.present) = images :=
    List.filter_eq_self.mpr (by simpa using hall)
  have hstep : createKenBurnsSegment images d =
      (if ((images.filter (fun i => i.present)).map
            (fun _ => d / (images.length : ℚ))).isEmpty = true then none
       else some ((images.filter (fun i => i.present)).map
            (fun _ => d / (images.length : ℚ)))) := by
    unfold createKenBurnsSegment
    rw [if_neg (by simpa [List.isEmpty_iff] using hne)]
  constructor
  · rw [hstep, hfil, map_const_eq_replicate,
      if_neg (by simp [List.isEmpty_iff, hlen])]
  · rw [List.sum_replicate, nsmul_eq_mul]
    field_simp

/-- C1 witness: three present images, segmentDuration 2. -/
theorem c1_even_split_exact_witness :
    createKenBurnsSegment (List.replicate 3 ⟨true⟩) 2 =
      some (List.replicate 3 ((2 : ℚ)/3)) ∧
    (List.replicate 3 ((2 : ℚ)/3)).sum = 2 := by
  have h := c1_even_split_exact (List.replicate 3 ⟨true⟩) 2 (by decide) (by decide)
  simpa using h

/-- C3 (corrected) counterexample: a segment of 3 images at segmentDuration 3
where the second image is missing yields clips [1, 1] — total 2, not the
caller-specified 3; the shortfall is NOT absorbed by the last image. -/
theorem c3_shortfall_counterexample :
    createKenBurnsSegment [⟨true⟩, ⟨false⟩, ⟨true⟩] 3 = some [1, 1] ∧
    ([(1 : ℚ), 1]).sum = 2 ∧ (2 : ℚ) ≠ 3 := by
  refine ⟨?_, ?_, ?_⟩
  · norm_num [createKenBurnsSegment, List.filter]
  · norm_num
  · norm_num

/-- C3 (corrected, amended): an image that fails to synthesize is skipped
and the remaining shares are not redistributed, but nothing absorbs the
shortfall either: every surviving image (the last included) keeps duration
segmentDuration / count(images), so the SegmentClip total duration is
(number of surviving images) × segmentDuration / count(images), which falls
short of segmentDuration by one share per skipped image. -/
theorem c3_skip_without_stretch (images : List ImageRef) (d : ℚ)
    (hs : images.filter (fun i => i.present) ≠ []) :
    createKenBurnsSegment images d =
      some (List.replicate (images.filter (fun i => i.present)).length
        (d / (images.length : ℚ))) ∧
    (List.replicate (images.filter (fun i => i.present)).length
        (d / (images.length : ℚ))).sum =
      ((images.filter (fun i => i.present)).length : ℚ) * (d / (images.length : ℚ)) := by
  have hne : images ≠ [] := by
    rintro rfl
    simp at hs
  have hstep : createKenBurnsSegment images d =
      (if ((images.filter (fun i => i.present)).map
            (fun _ => d / (images.length : ℚ))).isEmpty = true then none
       else some ((images.filter (fun i => i.present)).map
            (fun _ => d / (images.length : ℚ)))) := by
    unfold createKenBurnsSegment
    rw [if_neg (by simpa [List.isEmpty_iff] using hne)]
  constructor
  · rw [hstep, map_const_eq_replicate,
      if_neg (by simpa [List.isEmpty_iff] using hs)]
  · rw [List.sum_replicate, nsmul_eq_mul]

/-- C3 witness: images [present, missing, present], segmentDuration 3. -/
theorem c3_skip_without_stretch_witness :
    createKenBurnsSegment [⟨true⟩, ⟨false⟩, ⟨true⟩] 3 =
      some (List.replicate 2 ((3 : ℚ)/3)) ∧
    (List.replicate 2 ((3 : ℚ)/3)).sum = (2 : ℚ) * ((3 : ℚ)/3) := by
  have h := c3_skip_without_stretch [⟨true⟩, ⟨false⟩, ⟨true⟩] 3 (by decide)
  simpa using h

theorem crop_axis_bounds (n : ℕ) {zoom p : ℚ} (hz : 1 ≤ zoom)
    (hp0 : 0 ≤ p) (hp1 : p ≤ 1) :
    0 ≤ pyInt ((n : ℚ) / zoom) ∧
    0 ≤ pyInt (p * ((n : ℚ) - (pyInt ((n : ℚ) / zoom) : ℚ))) ∧
    pyInt (p * ((n : ℚ) - (pyInt ((n : ℚ) / zoom) : ℚ))) + pyInt ((n : ℚ) / zoom) ≤ (n : ℤ) := by
  have hz0 : (0 : ℚ) < zoom := lt_of_lt_of_le one_pos hz
  have hq0 : (0 : ℚ) ≤ (n : ℚ) / zoom := div_nonneg (Nat.cast_nonneg n) hz0.le
  have hc0 : 0 ≤ pyInt ((n : ℚ) / zoom) := pyInt_nonneg hq0
  have hcle : pyInt ((n : ℚ) / zoom) ≤ (n : ℤ) := by
    apply pyInt_le_intCast hq0
    push_cast
    exact div_le_self (Nat.cast_nonneg n) hz
  have hst := @start_in_range n (pyInt ((n : ℚ) / zoom)) p hcle hp0 hp1
  exact ⟨hc0, hst.1, hst.2⟩

/-- C5 (corrected) counterexample: the claim says cropW is clamped to at
least 1 pixel; on a 1×1 source frame with the valid zoom 1.3 the code
computes cropW = int(1 / 1.3) = 0 — there is no 1-pixel clamp. -/
theorem c5_no_min_clamp_counterexample :
    (cropRect 1 1 (13/10) (3/20) (3/20)).cropW = 0 ∧
    ¬ (1 ≤ (cropRect 1 1 (13/10) (3/20) (3/20)).cropW) ∧ (1 : ℚ) ≤ 13/10 := by
  have h : cropRect 1 1 (13/10) (3/20) (3/20) = ⟨0, 0, 0, 0⟩ := by
    simp only [cropRect]
    norm_num [pyInt, CropRect.mk.injEq]
  refine ⟨by rw [h], by rw [h]; norm_num, by norm_num⟩

/-- C5 (corrected, amended): the code performs no clamping at all, but for
every source frame, zoom ≥ 1 and pan pair in the unit square the unclamped
crop rectangle already lies entirely within the source frame: cropW and
cropH are nonnegative and the truncated origin satisfies
0 ≤ startX, startX + cropW ≤ frameW and 0 ≤ startY, startY + cropH ≤ frameH.
The claimed clamp of cropW/cropH to at least 1 pixel does not exist: both
are 0 whenever zoom exceeds the corresponding frame dimension. -/
theorem c5_crop_rect_within_frame (w h : ℕ) (zoom panX panY : ℚ)
    (hz : 1 ≤ zoom) (hx0 : 0 ≤ panX) (hx1 : panX ≤ 1)
    (hy0 : 0 ≤ panY) (hy1 : panY ≤ 1) :
    0 ≤ (cropRect w h zoom panX panY).cropW ∧
    0 ≤ (cropRect w h zoom panX panY).cropH ∧
    0 ≤ (cropRect w h zoom panX panY).startX ∧
    0 ≤ (cropRect w h zoom panX panY).startY ∧
    (cropRect w h zoom panX panY).startX + (cropRect w h zoom panX panY).cropW ≤ (w : ℤ) ∧
    (cropRect w h zoom panX panY).startY + (cropRect w h zoom panX panY).cropH ≤ (h : ℤ) := by
  have hx := crop_axis_bounds w hz hx0 hx1
  have hy := crop_axis_bounds h hz hy0 hy1
  exact ⟨hx.1, hy.1, hx.2.1, hy.2.1, hx.2.2, hy.2.2⟩

/-- C5 witness at a 1920×1080 frame, zoom 1.3, pan (0.15, 0.15). -/
theorem c5_crop_rect_within_frame_witness :
    0 ≤ (cropRect 1920 1080 (13/10) (3/20) (3/20)).cropW ∧
    0 ≤ (cropRect 1920 1080 (13/10) (3/20) (3/20)).cropH ∧
    0 ≤ (cropRect 1920 1080 (13/10) (3/20) (3/20)).startX ∧
    0 ≤ (cropRect 1920 1080 (13/10) (3/20) (3/20)).startY ∧
    (cropRect 1920 1080 (13/10) (3/20) (3/20)).startX +
      (cropRect 1920 1080 (13/10) (3/20) (3/20)).cropW ≤ (1920 : ℤ) ∧
    (cropRect 1920 1080 (13/10) (3/20) (3/20)).startY +
      (cropRect 1920 1080 (13/10) (3/20) (3/20)).cropH ≤ (1080 : ℤ) :=
  c5_crop_rect_within_frame 1920 1080 (13/10) (3/20) (3/20)
    (by norm_num) (by norm_num) (by norm_num) (by norm_num) (by norm_num)

/-- C8 (corrected) counterexample: for the valid zoom 1.3 and a 1×1 source
frame the crop collapses to zero pixels and the transform raises an OpenCV
error instead of producing a raster of the requested size. -/
theorem c8_empty_crop_counterexample :
    transformFrame ⟨1, 1, fun _ _ => 0⟩ (13/10) (3/20) (3/20) (1920, 1080) =
      Except.error PyErr.cvError ∧ (1 : ℚ) ≤ 13/10 := by
  refine ⟨?_, by norm_num⟩
  have hguard : transformFrame ⟨1, 1, fun _ _ => 0⟩ (13/10) (3/20) (3/20) (1920, 1080) =
      cvResize (npSlice ⟨1, 1, fun _ _ => 0⟩
        (cropRect 1 1 (13/10) (3/20) (3/20)).startY
        (cropRect 1 1 (13/10) (3/20) (3/20)).cropH
        (cropRect 1 1 (13/10) (3/20) (3/20)).startX
        (cropRect 1 1 (13/10) (3/20) (3/20)).cropW) (1920, 1080) := by
    unfold transformFrame
    rw [if_neg (by norm_num : ¬ (13/10 : ℚ) = 0)]
  have hcrop : cropRect 1 1 (13/10) (3/20) (3/20) = ⟨0, 0, 0, 0⟩ := by
    simp only [cropRect]
    norm_num [pyInt, CropRect.mk.injEq]
  rw [hguard, hcrop]
  norm_num [npSlice, npIdx, cvResize]

/-- C8 (corrected, amended): the transform produces a raster of exactly the
requested outSize whenever additionally the crop is non-empty — zoom not
exceeding either source dimension (so cropW, cropH ≥ 1) and a positive
requested size; when zoom exceeds a source dimension the crop is empty and
the transform fails instead of producing a frame. -/
theorem c8_output_size (frame : Raster) (zoom panX panY : ℚ) (tw th : ℕ)
    (hz : 1 ≤ zoom) (hzw : zoom ≤ (frame.w : ℚ)) (hzh : zoom ≤ (frame.h : ℚ))
    (hx0 : 0 ≤ panX) (hx1 : panX ≤ 1) (hy0 : 0 ≤ panY) (hy1 : panY ≤ 1)
    (htw : tw ≠ 0) (hth : th ≠ 0) :
    ∃ out, transformFrame frame zoom panX panY (tw, th) = Except.ok out ∧
      out.w = tw ∧ out.h = th := by
  have hz0 : (0 : ℚ) < zoom := lt_of_lt_of_le one_pos hz
  have hzne : zoom ≠ 0 := ne_of_gt hz0
  have hx := crop_axis_bounds frame.w hz hx0 hx1
  have hy := crop_axis_bounds frame.h hz hy0 hy1
  have hcw1 : 1 ≤ pyInt ((frame.w : ℚ) / zoom) := one_le_pyInt ((one_le_div hz0).mpr hzw)
  have hch1 : 1 ≤ pyInt ((frame.h : ℚ) / zoom) := one_le_pyInt ((one_le_div hz0).mpr hzh)
  have hguard : transformFrame frame zoom panX panY (tw, th) =
      cvResize (npSlice frame
        (cropRect frame.w frame.h zoom panX panY).startY
        (cropRect frame.w frame.h zoom panX panY).cropH
        (cropRect frame.w frame.h zoom panX panY).startX
        (cropRect frame.w frame.h zoom panX panY).cropW) (tw, th) := by
    unfold transformFrame
    rw [if_neg hzne]
  have hdims := @npSlice_dims frame
      (cropRect frame.w frame.h zoom panX panY).startY
      (cropRect frame.w frame.h zoom panX panY).cropH
      (cropRect frame.w frame.h zoom panX panY).startX
      (cropRect frame.w frame.h zoom panX panY).cropW
      hy.2.1 hy.1 hy.2.2 hx.2.1 hx.1 hx.2.2
  have hcwEq : (cropRect frame.w frame.h zoom panX panY).cropW =
      pyInt ((frame.w : ℚ) / zoom) := rfl
  have hchEq : (cropRect frame.w frame.h zoom panX panY).cropH =
      pyInt ((frame.h : ℚ) / zoom) := rfl
  rw [hguard]
  unfold cvResize
  rw [if_neg (by
    push_neg
    refine ⟨?_, ?_, htw, hth⟩
    · rw [hdims.1, hcwEq]
      omega
    · rw [hdims.2, hchEq]
      omega)]
  exact ⟨_, rfl, rfl, rfl⟩

/-- C8 witness at a 100×50 source frame, zoom 1.3, pan (0.15, 0.15),
requested size 1920×1080. -/
theorem c8_output_size_witness :
    ∃ out, transformFrame ⟨100, 50, fun _ _ => 7⟩ (13/10) (3/20) (3/20) (1920, 1080) =
      Except.ok out ∧ out.w = 1920 ∧ out.h = 1080 :=
  c8_output_size ⟨100, 50, fun _ _ => 7⟩ (13/10) (3/20) (3/20) 1920 1080
    (by norm_num) (by norm_num) (by norm_num) (by norm_num) (by norm_num)
    (by norm_num) (by norm_num) (by norm_num) (by norm_num)

/-- C10 (code_bug): the claim — derived from the clear intent of the
catch-all in `lambda_handler` — says the handler always returns a response
and the error path always constructs its JSON body. The code instead calls
`datetime.now().iso8601()`, a method that does not exist on datetime (the
real one, used by src/old, is `isoformat()`), so `_error_response` raises
AttributeError and `lambda_handler`, whose except-block calls it again,
propagates that exception: at the failing input event without project_id
the handler raises instead of returning a statusCode-500 dictionary. -/
theorem c10_error_path_raises :
    errorResponse ⟨0⟩ "project_id is required" = Except.error PyErr.attributeError ∧
    lambdaHandler ⟨0⟩ (Except.ok ⟨200, ""⟩) (Except.ok ⟨200, ""⟩) (Except.ok ⟨200, ""⟩)
      none false false = Except.error PyErr.attributeError :=
  ⟨rfl, rfl⟩
